import Mathlib

/-!
Shallow embedding of the authentication subsystem of the
encore-react-starter repository: the password hasher wrapper
(backend/auth/utils/password.ts), the JWT token issuer (backend/auth/jwt.ts),
the refresh-token revocation ledger (backend/auth/services/token-service.ts
and its migration 002_add_refresh_tokens.up.sql), and the auth endpoints
(backend/auth/endpoints/auth.ts and backend/auth/endpoints/password.ts).

Database tables are modelled as lists of rows; SQL statements become list
operations over those rows; `NOW()` and JS `Date.now()` become an explicit
`now : Nat` parameter; random values produced at run time (jti values from
`crypto.randomBytes`, bcrypt salts, reset tokens) become explicit parameters
of the functions that draw them.  Fallible endpoints return `Except APIError`.
-/

namespace Auth

/-! ## Error model (encore.dev APIError) -/

/-- Error codes used by the auth endpoints, from `encore.dev/api` `ErrCode`:
`invalid_argument` (HTTP 400), `already_exists` (409), `unauthenticated`
(401), `internal` (500). -/
inductive ErrCode where
  | invalidArgument
  | alreadyExists
  | unauthenticated
  | internal
  deriving DecidableEq, Repr

/-- An `APIError` as thrown by the endpoints: a machine-readable code and a
human-readable message (for the raw endpoints, the JSON body written with a
4xx or 5xx status has exactly this shape). -/
structure APIError where
  code : ErrCode
  message : String
  deriving DecidableEq, Repr

/-! ## Password hasher (backend/auth/utils/password.ts) -/

/-- Symbolic bcrypt digest.  Modelled from the behaviour of the `bcrypt`
npm library used by `utils/password.ts`: `bcrypt.hash(password, rounds)`
draws a fresh random salt and produces a digest that records the salt, the
cost factor and (symbolically) the hashed plaintext; the library accepts
any plaintext string, including the empty string.  The `salt` field stands
for the random salt drawn inside the library, so it appears as an explicit
parameter of `bcryptHash`. -/
structure Digest where
  plaintext : String
  salt : Nat
  cost : Nat
  deriving DecidableEq, Repr

/-- Symbolic `bcrypt.hash(password, cost)`; `salt` models the salt drawn
internally by the library on this call.  Total: the library hashes every
string, the empty string included. -/
def bcryptHash (password : String) (cost : Nat) (salt : Nat) : Digest :=
  { plaintext := password, salt := salt, cost := cost }

/-- Symbolic `bcrypt.compare(password, hash)`: true iff the candidate
plaintext matches the plaintext the digest was built from. -/
def bcryptCompare (password : String) (digest : Digest) : Bool :=
  password == digest.plaintext

/-- `hashPassword` from `utils/password.ts` (identical private copy in
`backend/auth/auth.ts` lines 64 to 66): delegates to `bcrypt.hash(password, 12)`
with no input validation of its own. -/
def hashPassword (password : String) (salt : Nat) : Digest :=
  bcryptHash password 12 salt

/-- `verifyPassword` from `utils/password.ts`: delegates to
`bcrypt.compare(password, hash)`. -/
def verifyPassword (password : String) (digest : Digest) : Bool :=
  bcryptCompare password digest

/-! ## Data model (migrations 001 and 002, backend/auth/types.ts) -/

/-- A row of the `users` table / the `User` interface of
`backend/auth/types.ts`.  Timestamps are abstract `Nat` instants. -/
structure User where
  id : String
  email : String
  password_hash : Digest
  is_verified : Bool
  verification_token : Option String
  reset_token : Option String
  reset_token_expires : Option Nat
  created_at : Nat
  updated_at : Nat
  deriving DecidableEq, Repr

/-- A row of the `refresh_tokens` table created by
`002_add_refresh_tokens.up.sql`: jti (UNIQUE), owning user, expiry
(default NOW() + 7 days), revoked flag (default FALSE), revocation time. -/
structure RefreshTokenRecord where
  user_id : String
  jti : String
  created_at : Nat
  expires_at : Nat
  revoked : Bool
  revoked_at : Option Nat
  deriving DecidableEq, Repr

/-- The persistent state the auth service reads and writes: the `users`
table and the `refresh_tokens` table. -/
structure AuthState where
  users : List User
  refresh_tokens : List RefreshTokenRecord
  deriving DecidableEq, Repr

/-! ## Revocation ledger (backend/auth/services/token-service.ts) -/

/-- Default refresh-token row lifetime, from the migration default
`NOW() + INTERVAL 7 days` (in seconds). -/
def REFRESH_ROW_LIFETIME : Nat := 7 * 24 * 60 * 60

/-- `storeRefreshToken(userId, jti)`: `INSERT INTO refresh_tokens (user_id, jti)
VALUES (...)`.  The omitted columns take their migration defaults
(`expires_at = NOW() + 7 days`, `revoked = FALSE`).  The UNIQUE constraint
on `jti` makes the insert fail when a row with the same jti already
exists, which surfaces as a thrown database error. -/
def storeRefreshToken (userId jti : String) (now : Nat)
    (ledger : List RefreshTokenRecord) : Except Unit (List RefreshTokenRecord) :=
  if ledger.any (fun r => r.jti == jti) then
    .error ()
  else
    .ok (ledger ++ [{ user_id := userId, jti := jti, created_at := now,
                      expires_at := now + REFRESH_ROW_LIFETIME,
                      revoked := false, revoked_at := none }])

/-- `isRefreshTokenValid(jti)`: `SELECT id FROM refresh_tokens WHERE
jti = $1 AND expires_at > NOW() AND revoked = FALSE`, coerced to a boolean
(row found or not). -/
def isRefreshTokenValid (jti : String) (now : Nat)
    (ledger : List RefreshTokenRecord) : Bool :=
  ledger.any (fun r => r.jti == jti && decide (now < r.expires_at) && !r.revoked)

/-- `revokeRefreshToken(jti)`: `UPDATE refresh_tokens SET revoked = TRUE,
revoked_at = NOW() WHERE jti = $1`. -/
def revokeRefreshToken (jti : String) (now : Nat)
    (ledger : List RefreshTokenRecord) : List RefreshTokenRecord :=
  ledger.map (fun r =>
    if r.jti == jti then { r with revoked := true, revoked_at := some now } else r)

/-- `revokeAllUserTokens(userId)`: `UPDATE refresh_tokens SET revoked = TRUE,
revoked_at = NOW() WHERE user_id = $1 AND revoked = FALSE`. -/
def revokeAllUserTokens (userId : String) (now : Nat)
    (ledger : List RefreshTokenRecord) : List RefreshTokenRecord :=
  ledger.map (fun r =>
    if r.user_id == userId && !r.revoked then
      { r with revoked := true, revoked_at := some now }
    else r)

/-! ## Token issuer (backend/auth/jwt.ts) -/

/-- The two distinct signing secrets `JWT_ACCESS_SECRET` and
`JWT_REFRESH_SECRET` read from Encore configuration. -/
structure Secrets where
  accessSecret : String
  refreshSecret : String
  deriving DecidableEq, Repr

/-- `ACCESS_TOKEN_EXPIRY = 30m`, in seconds. -/
def ACCESS_TOKEN_EXPIRY : Nat := 30 * 60

/-- `REFRESH_TOKEN_EXPIRY = 7d`, in seconds. -/
def REFRESH_TOKEN_EXPIRY : Nat := 7 * 24 * 60 * 60

/-- The `AccessTokenPayload` interface of `jwt.ts`: subject user id, email,
verification flag, issued-at, expiry.  The access-type discriminator is
carried by the `JwtClaims.access` constructor below. -/
structure AccessTokenPayload where
  sub : String
  email : String
  is_verified : Bool
  iat : Nat
  exp : Nat
  deriving DecidableEq, Repr

/-- The `RefreshTokenPayload` interface of `jwt.ts`: subject user id, jti,
issued-at, expiry.  The refresh-type discriminator is carried by the
`JwtClaims.refresh` constructor below. -/
structure RefreshTokenPayload where
  sub : String
  jti : String
  iat : Nat
  exp : Nat
  deriving DecidableEq, Repr

/-- The claims object inside a JWT; the constructor is the `type`
discriminator field checked by the validators. -/
inductive JwtClaims where
  | access (p : AccessTokenPayload)
  | refresh (p : RefreshTokenPayload)
  deriving DecidableEq, Repr

/-- The `exp` claim of either payload kind, read by `jwt.verify` when it
checks expiry. -/
def JwtClaims.exp : JwtClaims → Nat
  | .access p => p.exp
  | .refresh p => p.exp

/-- Symbolic signed JWT: `jwt.sign(payload, secret, {issuer, audience})`
is modelled as packaging the claims with the signing secret and the
issuer/audience options; `jwt.verify` then checks those fields against its
own arguments.  A signature forged without the secret cannot exist in this
model, which is the standard symbolic-crypto reading of an unforgeable MAC. -/
structure SignedToken where
  claims : JwtClaims
  secret : String
  issuer : String
  audience : String
  deriving DecidableEq, Repr

/-- Errors raised by `jwt.verify`: `JsonWebTokenError` for a bad signature
or issuer/audience mismatch, `TokenExpiredError` for an expired token. -/
inductive JwtError where
  | invalid
  | expired
  deriving DecidableEq, Repr

/-- Symbolic `jwt.verify(token, secret, {issuer, audience})` at time `now`:
checks the signature (secret match), the issuer and audience claims, and
that the `exp` claim is still in the future. -/
def jwtVerify (tok : SignedToken) (secret issuer audience : String)
    (now : Nat) : Except JwtError JwtClaims :=
  if tok.secret ≠ secret then .error .invalid
  else if tok.issuer ≠ issuer ∨ tok.audience ≠ audience then .error .invalid
  else if tok.claims.exp ≤ now then .error .expired
  else .ok tok.claims

/-- Fixed issuer claim used by `jwt.ts` for signing and validation. -/
def JWT_ISSUER : String := "cms-react-encore"

/-- Fixed audience claim used by `jwt.ts` for signing and validation. -/
def JWT_AUDIENCE : String := "cms-users"

/-- `generateAccessToken(user)`: signs `{sub: user.id, email, is_verified,
type: access}` with the access secret, expiring `ACCESS_TOKEN_EXPIRY`
after issuance, with the fixed issuer and audience. -/
def generateAccessToken (s : Secrets) (user : User) (now : Nat) : SignedToken :=
  let payload : AccessTokenPayload :=
    { sub := user.id, email := user.email, is_verified := user.is_verified,
      iat := now, exp := now + ACCESS_TOKEN_EXPIRY }
  { claims := .access payload, secret := s.accessSecret,
    issuer := JWT_ISSUER, audience := JWT_AUDIENCE }

/-- `generateRefreshToken(userId)`: draws a fresh jti (`generateJTI`, 16
random bytes as hex — modelled by the explicit `jti` parameter) and signs
`{sub: userId, type: refresh, jti}` with the refresh secret, expiring
`REFRESH_TOKEN_EXPIRY` after issuance. -/
def generateRefreshToken (s : Secrets) (userId jti : String) (now : Nat) :
    SignedToken × String :=
  let payload : RefreshTokenPayload :=
    { sub := userId, jti := jti, iat := now, exp := now + REFRESH_TOKEN_EXPIRY }
  ({ claims := .refresh payload, secret := s.refreshSecret,
     issuer := JWT_ISSUER, audience := JWT_AUDIENCE },
   jti)

/-- `generateTokenPair(user)`: composes `generateAccessToken` and
`generateRefreshToken`, returning the access token, the refresh token and
the refresh jti. -/
def generateTokenPair (s : Secrets) (user : User) (jti : String) (now : Nat) :
    SignedToken × SignedToken × String :=
  let accessToken := generateAccessToken s user now
  let pair := generateRefreshToken s user.id jti now
  (accessToken, pair.1, pair.2)

/-- `validateAccessToken(token)`: verifies signature, issuer/audience and
expiry with the access secret, then checks that the payload kind is access;
every failure maps to an Unauthenticated APIError. -/
def validateAccessToken (s : Secrets) (tok : SignedToken) (now : Nat) :
    Except APIError AccessTokenPayload :=
  match jwtVerify tok s.accessSecret JWT_ISSUER JWT_AUDIENCE now with
  | .error .invalid => .error ⟨.unauthenticated, "Invalid access token"⟩
  | .error .expired => .error ⟨.unauthenticated, "Access token expired"⟩
  | .ok (.access p) => .ok p
  | .ok (.refresh _) => .error ⟨.unauthenticated, "Invalid token type"⟩

/-- `validateRefreshToken(token)`: verifies signature, issuer/audience and
expiry with the refresh secret, then checks that the payload kind is refresh;
every failure maps to an Unauthenticated APIError. -/
def validateRefreshToken (s : Secrets) (tok : SignedToken) (now : Nat) :
    Except APIError RefreshTokenPayload :=
  match jwtVerify tok s.refreshSecret JWT_ISSUER JWT_AUDIENCE now with
  | .error .invalid => .error ⟨.unauthenticated, "Invalid refresh token"⟩
  | .error .expired => .error ⟨.unauthenticated, "Refresh token expired"⟩
  | .ok (.refresh p) => .ok p
  | .ok (.access _) => .error ⟨.unauthenticated, "Invalid token type"⟩

/-- `extractUserFromToken(token)`: `validateAccessToken` plus projection to
`{userId, email, is_verified}`. -/
def extractUserFromToken (s : Secrets) (tok : SignedToken) (now : Nat) :
    Except APIError (String × String × Bool) :=
  (validateAccessToken s tok now).map (fun p => (p.sub, p.email, p.is_verified))

/-! ## Auth endpoints (backend/auth/endpoints/auth.ts) -/

/-- The public projection of a user returned by `generateLoginResponse`. -/
structure PublicUser where
  id : String
  email : String
  is_verified : Bool
  deriving DecidableEq, Repr

/-- The `LoginResponse` interface: public user projection plus the access
token (the tokens also travel as cookies, which this embedding abstracts
away per the transport-shaping note of the design). -/
structure LoginResponse where
  user : PublicUser
  token : SignedToken
  deriving DecidableEq, Repr

/-- `generateLoginResponse(user, token)` from `jwt.ts`. -/
def generateLoginResponse (user : User) (token : SignedToken) : LoginResponse :=
  { user := { id := user.id, email := user.email, is_verified := user.is_verified },
    token := token }

/-- `signin` (endpoints/auth.ts lines 110 to 183).  `newJti` models the
random jti drawn inside `generateTokenPair`; `salt` is unused here but kept
out: signin never hashes.  Validation: the JS falsiness check
`!body.email || !body.password` rejects empty strings with a 400
invalid_argument before anything else.  Lookup by email; a missing user and
a failed password verification both produce the identical 401 response.
A thrown database error in `storeRefreshToken` is caught by the endpoint
and surfaces as a 500 internal error. -/
def signin (s : Secrets) (st : AuthState) (email password newJti : String)
    (now : Nat) : Except APIError (AuthState × LoginResponse) :=
  if email = "" ∨ password = "" then
    .error ⟨.invalidArgument, "Email and password are required"⟩
  else
    match st.users.find? (fun u => u.email == email) with
    | none => .error ⟨.unauthenticated, "Invalid email or password"⟩
    | some user =>
      if ¬ verifyPassword password user.password_hash then
        .error ⟨.unauthenticated, "Invalid email or password"⟩
      else
        let pair := generateTokenPair s user newJti now
        match storeRefreshToken user.id pair.2.2 now st.refresh_tokens with
        | .error _ => .error ⟨.internal, "Internal server error"⟩
        | .ok ledger => .ok ({ st with refresh_tokens := ledger },
            generateLoginResponse user pair.1)

/-- `refresh` (endpoints/auth.ts lines 185 to 258).  The state is returned
alongside the result because the endpoint runs each SQL statement in its
own transaction: when `storeRefreshToken` throws after `revokeRefreshToken`
already committed, the revocation persists while the catch block answers
401 "Invalid refresh token" — the same message used when
`validateRefreshToken` throws, since the single catch covers both. -/
def refresh (s : Secrets) (st : AuthState) (refreshCookie : Option SignedToken)
    (newJti : String) (now : Nat) :
    AuthState × Except APIError (SignedToken × SignedToken) :=
  match refreshCookie with
  | none => (st, .error ⟨.unauthenticated, "No refresh token provided"⟩)
  | some tok =>
    match validateRefreshToken s tok now with
    | .error _ => (st, .error ⟨.unauthenticated, "Invalid refresh token"⟩)
    | .ok payload =>
      if ¬ isRefreshTokenValid payload.jti now st.refresh_tokens then
        (st, .error ⟨.unauthenticated, "Refresh token revoked or expired"⟩)
      else
        match st.users.find? (fun u => u.id == payload.sub) with
        | none => (st, .error ⟨.unauthenticated, "User not found"⟩)
        | some user =>
          let pair := generateTokenPair s user newJti now
          let ledger1 := revokeRefreshToken payload.jti now st.refresh_tokens
          match storeRefreshToken user.id pair.2.2 now ledger1 with
          | .error _ => ({ st with refresh_tokens := ledger1 },
              .error ⟨.unauthenticated, "Invalid refresh token"⟩)
          | .ok ledger2 => ({ st with refresh_tokens := ledger2 },
              .ok (pair.1, pair.2.1))

/-! ## Password endpoints (backend/auth/endpoints/password.ts) -/

/-- The `PasswordResponse` interface: `{success, message}`. -/
structure PasswordResponse where
  success : Bool
  message : String
  deriving DecidableEq, Repr

/-- The generic message `forgotPassword` answers whether or not the email
exists. -/
def FORGOT_PASSWORD_MESSAGE : String :=
  "If an account with this email exists, a password reset link has been sent."

/-- Reset-token lifetime set by `forgotPassword`:
`Date.now() + 60 * 60 * 1000` (one hour, in JS milliseconds). -/
def RESET_TOKEN_LIFETIME : Nat := 60 * 60 * 1000

/-- `forgotPassword` (endpoints/password.ts lines 36 to 79).  A missing
(falsy) email is rejected with invalid_argument.  Otherwise: look the user
up by email; when absent, answer the generic success message; when
present, store a fresh reset token (`resetToken` models the random string
from `generateResetToken`) with a one-hour expiry on the user row, bump
`updated_at`, and answer the identical generic success message. -/
def forgotPassword (st : AuthState) (email resetToken : String) (now : Nat) :
    Except APIError (AuthState × PasswordResponse) :=
  if email = "" then
    .error ⟨.invalidArgument, "Email is required"⟩
  else
    match st.users.find? (fun u => u.email == email) with
    | none => .ok (st, ⟨true, FORGOT_PASSWORD_MESSAGE⟩)
    | some user =>
      let users := st.users.map (fun u =>
        if u.id == user.id then
          { u with reset_token := some resetToken,
                   reset_token_expires := some (now + RESET_TOKEN_LIFETIME),
                   updated_at := now }
        else u)
      .ok ({ st with users := users }, ⟨true, FORGOT_PASSWORD_MESSAGE⟩)

/-- The row filter of the `resetPassword` lookup: `WHERE reset_token = $1
AND reset_token_expires > NOW()`.  A NULL `reset_token_expires` makes the
SQL comparison unknown, so the row does not match. -/
def resetTokenMatches (token : String) (now : Nat) (u : User) : Bool :=
  u.reset_token == some token &&
    (match u.reset_token_expires with
     | some e => decide (now < e)
     | none => false)

/-- `resetPassword` (endpoints/password.ts lines 81 to 125).  Validation:
falsy token or password gives invalid_argument, a password shorter than 6
characters gives invalid_argument.  Look the user up by reset token with a
strictly-future expiry; when absent, invalid_argument "Invalid or expired
reset token".  Otherwise hash the new password (`salt` models the bcrypt
salt), store it, clear the reset token and expiry, bump `updated_at`, and
revoke every refresh token of the user. -/
def resetPassword (st : AuthState) (token newPassword : String)
    (now salt : Nat) : Except APIError (AuthState × PasswordResponse) :=
  if token = "" ∨ newPassword = "" then
    .error ⟨.invalidArgument, "Token and new password are required"⟩
  else if newPassword.length < 6 then
    .error ⟨.invalidArgument, "Password must be at least 6 characters long"⟩
  else
    match st.users.find? (resetTokenMatches token now) with
    | none => .error ⟨.invalidArgument, "Invalid or expired reset token"⟩
    | some user =>
      let passwordHash := hashPassword newPassword salt
      let users := st.users.map (fun u =>
        if u.id == user.id then
          { u with password_hash := passwordHash, reset_token := none,
                   reset_token_expires := none, updated_at := now }
        else u)
      let ledger := revokeAllUserTokens user.id now st.refresh_tokens
      .ok ({ users := users, refresh_tokens := ledger },
           ⟨true, "Password has been reset successfully. Please sign in with your new password."⟩)

/-- `changePassword` (endpoints/password.ts lines 127 to 191).  The access
token comes from the Authorization header when present (the stripping of
the leading Bearer marker abstracted away), else from the cookie; with
neither, 401.  Then: falsy current or new password gives invalid_argument;
a new password shorter than 6 characters gives invalid_argument;
`extractUserFromToken` validates the token (its Unauthenticated error
propagates); the user row is fetched by the token subject; the current
password must verify against the stored hash, else invalid_argument
"Current password is incorrect"; finally the new hash is stored and
`revokeAllUserTokens` revokes every non-revoked refresh-token row of the
user — despite the adjacent comment saying the current session is kept,
nothing is exempted. -/
def changePassword (s : Secrets) (st : AuthState)
    (authorization accessTokenCookie : Option SignedToken)
    (currentPassword newPassword : String) (now salt : Nat) :
    Except APIError (AuthState × PasswordResponse) :=
  match (match authorization with
         | some t => some t
         | none => accessTokenCookie) with
  | none => .error ⟨.unauthenticated, "No access token provided"⟩
  | some tok =>
    if currentPassword = "" ∨ newPassword = "" then
      .error ⟨.invalidArgument, "Current password and new password are required"⟩
    else if newPassword.length < 6 then
      .error ⟨.invalidArgument, "New password must be at least 6 characters long"⟩
    else
      match extractUserFromToken s tok now with
      | .error e => .error e
      | .ok info =>
        match st.users.find? (fun u => u.id == info.1) with
        | none => .error ⟨.unauthenticated, "User not found"⟩
        | some user =>
          if ¬ verifyPassword currentPassword user.password_hash then
            .error ⟨.invalidArgument, "Current password is incorrect"⟩
          else
            let passwordHash := hashPassword newPassword salt
            let users := st.users.map (fun u =>
              if u.id == user.id then
                { u with password_hash := passwordHash, updated_at := now }
              else u)
            let ledger := revokeAllUserTokens user.id now st.refresh_tokens
            .ok ({ users := users, refresh_tokens := ledger },
                 ⟨true, "Password changed successfully"⟩)

/-! ## Ledger operation sequences (for the monotonicity invariant) -/

/-- One primitive write of the revocation ledger; every endpoint flow
(signup, signin, refresh, logout, resetPassword, changePassword) composes
its ledger writes from these three.  A failing `store` (duplicate jti)
leaves the ledger unchanged. -/
inductive LedgerOp where
  | store (userId jti : String) (now : Nat)
  | revoke (jti : String) (now : Nat)
  | revokeAll (userId : String) (now : Nat)
  deriving DecidableEq, Repr

/-- Apply one ledger operation. -/
def applyOp (op : LedgerOp) (ledger : List RefreshTokenRecord) :
    List RefreshTokenRecord :=
  match op with
  | .store userId jti now =>
    match storeRefreshToken userId jti now ledger with
    | .ok ledger2 => ledger2
    | .error _ => ledger
  | .revoke jti now => revokeRefreshToken jti now ledger
  | .revokeAll userId now => revokeAllUserTokens userId now ledger

/-- Apply a sequence of ledger operations, oldest first. -/
def applyOps (ops : List LedgerOp) (ledger : List RefreshTokenRecord) :
    List RefreshTokenRecord :=
  ops.foldl (fun l op => applyOp op l) ledger

end Auth

namespace Auth

/-! ## Test fixtures shared by the concrete witnesses -/

/-- Concrete signing secrets for witness scenarios. -/
def testSecrets : Secrets := { accessSecret := "as", refreshSecret := "rs" }

/-- Concrete stored user for witness scenarios, with password "secret1". -/
def testUser : User :=
  { id := "u1", email := "a@x.com", password_hash := hashPassword "secret1" 0,
    is_verified := false, verification_token := none, reset_token := none,
    reset_token_expires := none, created_at := 0, updated_at := 0 }

/-- Concrete ledger row for the jti "j1" issued to `testUser` at time 0. -/
def testRow : RefreshTokenRecord :=
  { user_id := "u1", jti := "j1", created_at := 0,
    expires_at := REFRESH_ROW_LIFETIME, revoked := false, revoked_at := none }

/-- Concrete auth-service state for witness scenarios. -/
def testState : AuthState := { users := [testUser], refresh_tokens := [testRow] }

/-- The refresh token presented in the witness scenarios: issued for
`testUser` with jti "j1" at time 0. -/
def testRefreshJwt : SignedToken := (generateRefreshToken testSecrets "u1" "j1" 0).1

/-! ## C2 -/

/-- C2: `isRefreshTokenValid(jti)` returns true iff the ledger holds a row
with that jti whose `expires_at` is strictly greater than now and whose
revoked flag is false; an absent, expired, or revoked row yields false. -/
theorem isRefreshTokenValid_iff (jti : String) (now : Nat)
    (ledger : List RefreshTokenRecord) :
    isRefreshTokenValid jti now ledger = true ↔
      ∃ r ∈ ledger, r.jti = jti ∧ now < r.expires_at ∧ r.revoked = false := by
  simp [isRefreshTokenValid, List.any_eq_true, Bool.and_eq_true, beq_iff_eq,
    Bool.not_eq_true', decide_eq_true_eq, and_assoc]

/-! ## C4 -/

/-- C4: with the salt drawn by each `bcrypt.hash` call made explicit, a
password verifies against its own digest; a different plaintext does not
verify against that digest; and two `hashPassword` calls for the same
plaintext with distinct salts produce two different digest values that
both verify against the plaintext. -/
theorem hashPassword_verify_resalted (p p2 : String) (s s2 s3 : Nat)
    (hp : p ≠ p2) (hs : s2 ≠ s3) :
    verifyPassword p (hashPassword p s) = true ∧
    verifyPassword p (hashPassword p2 s) = false ∧
    hashPassword p s2 ≠ hashPassword p s3 ∧
    verifyPassword p (hashPassword p s2) = true ∧
    verifyPassword p (hashPassword p s3) = true := by
  refine ⟨?_, ?_, ?_, ?_, ?_⟩
  · simp [verifyPassword, hashPassword, bcryptCompare, bcryptHash]
  · simp only [verifyPassword, hashPassword, bcryptCompare, bcryptHash,
      beq_eq_false_iff_ne, ne_eq]
    exact hp
  · simp only [hashPassword, bcryptHash, ne_eq, Digest.mk.injEq, true_and,
      and_true]
    exact hs
  · simp [verifyPassword, hashPassword, bcryptCompare, bcryptHash]
  · simp [verifyPassword, hashPassword, bcryptCompare, bcryptHash]

/-- Witness for C4 at the concrete passwords "secret1" and "hunter2" with
salts 0 and 1. -/
theorem hashPassword_verify_resalted_witness :
    verifyPassword "secret1" (hashPassword "secret1" 0) = true ∧
    verifyPassword "secret1" (hashPassword "hunter2" 0) = false ∧
    hashPassword "secret1" 0 ≠ hashPassword "secret1" 1 ∧
    verifyPassword "secret1" (hashPassword "secret1" 0) = true ∧
    verifyPassword "secret1" (hashPassword "secret1" 1) = true :=
  hashPassword_verify_resalted "secret1" "hunter2" 0 0 1
    (by decide) (by decide)

/-! ## C8 -/

/-- C8: evaluating `hashPassword` at the empty string.  The wrapper has no
input validation and the bcrypt library hashes the empty string, so the call
returns an ordinary digest (which even verifies against the empty string)
instead of failing with an InvalidInput error as the specification and the
repository test `tests/password.test.ts` ("should handle empty password",
expecting a throw) demand. -/
theorem hashPassword_empty_returns_digest :
    hashPassword "" 0 = { plaintext := "", salt := 0, cost := 12 } ∧
    verifyPassword "" (hashPassword "" 0) = true := by
  constructor
  · rfl
  · decide

/-! ## C5 -/

/-- C5: round-trip of `generateTokenPair` through the validators.  Before
the access expiry, `validateAccessToken` accepts the issued access token
and returns the access-typed payload whose `sub` is the user id; before
the refresh expiry, `validateRefreshToken` accepts the issued refresh
token and returns the refresh-typed payload whose `jti` is the jti handed
out at issuance. -/
theorem generateTokenPair_roundtrip (s : Secrets) (user : User) (jti : String)
    (now now2 now3 : Nat)
    (h2 : now2 < now + ACCESS_TOKEN_EXPIRY)
    (h3 : now3 < now + REFRESH_TOKEN_EXPIRY) :
    validateAccessToken s (generateTokenPair s user jti now).1 now2 =
      .ok { sub := user.id, email := user.email,
            is_verified := user.is_verified, iat := now,
            exp := now + ACCESS_TOKEN_EXPIRY } ∧
    validateRefreshToken s (generateTokenPair s user jti now).2.1 now3 =
      .ok { sub := user.id, jti := jti, iat := now,
            exp := now + REFRESH_TOKEN_EXPIRY } ∧
    (generateTokenPair s user jti now).2.2 = jti := by
  have ha : ¬ (now + ACCESS_TOKEN_EXPIRY ≤ now2) := by omega
  have hb : ¬ (now + REFRESH_TOKEN_EXPIRY ≤ now3) := by omega
  refine ⟨?_, ?_, rfl⟩
  · simp [generateTokenPair, generateAccessToken, validateAccessToken,
      jwtVerify, JwtClaims.exp, ha]
  · simp [generateTokenPair, generateRefreshToken, validateRefreshToken,
      jwtVerify, JwtClaims.exp, hb]

/-- Witness for C5: the pair issued to `testUser` at time 0 with jti "j1"
validates at time 10 and returns the expected payloads. -/
theorem generateTokenPair_roundtrip_witness :
    validateAccessToken testSecrets
        (generateTokenPair testSecrets testUser "j1" 0).1 10 =
      .ok { sub := testUser.id, email := testUser.email,
            is_verified := testUser.is_verified, iat := 0,
            exp := 0 + ACCESS_TOKEN_EXPIRY } ∧
    validateRefreshToken testSecrets
        (generateTokenPair testSecrets testUser "j1" 0).2.1 10 =
      .ok { sub := testUser.id, jti := "j1", iat := 0,
            exp := 0 + REFRESH_TOKEN_EXPIRY } ∧
    (generateTokenPair testSecrets testUser "j1" 0).2.2 = "j1" :=
  generateTokenPair_roundtrip testSecrets testUser "j1" 0 10 10
    (by decide) (by decide)

/-! ## C3 -/

/-- C3 counterexample: the claim quantifies over every signin input, but an
input whose email is the empty string matches no stored user and is still
answered with 400 invalid_argument "Email and password are required" by the
falsiness validation that runs before the lookup — not with the 401
"Invalid email or password" the claim requires for every no-match input. -/
theorem signin_empty_email_not_unauthenticated :
    (∀ u ∈ testState.users, u.email ≠ "") ∧
    signin testSecrets testState "" "whatever" "j2" 0 =
      .error ⟨.invalidArgument, "Email and password are required"⟩ ∧
    ErrCode.invalidArgument ≠ ErrCode.unauthenticated := by
  refine ⟨by decide, rfl, by decide⟩

/-- C3 (amended to non-empty email and password inputs): whenever the email
matches no stored user, or it matches one whose stored hash the password
fails to verify against, signin answers 401 Unauthenticated with the one
generic message "Invalid email or password", identical in both cases. -/
theorem signin_generic_unauthenticated (s : Secrets) (st : AuthState)
    (email password newJti : String) (now : Nat)
    (hE : email ≠ "") (hP : password ≠ "")
    (h : ∀ u ∈ st.users, u.email = email →
         verifyPassword password u.password_hash = false) :
    signin s st email password newJti now =
      .error ⟨.unauthenticated, "Invalid email or password"⟩ := by
  have hcond : ¬ (email = "" ∨ password = "") := by
    rintro (hc | hc)
    · exact hE hc
    · exact hP hc
  cases hfind : st.users.find? (fun u => u.email == email) with
  | none => simp [signin, hcond, hfind]
  | some u =>
    have hmem : u ∈ st.users := List.mem_of_find?_eq_some hfind
    have hemail : u.email = email := by
      have := List.find?_some hfind
      simpa using this
    simp [signin, hcond, hfind, h u hmem hemail]

/-- Witness for C3 (amended): a wrong password for the stored user and a
non-empty unknown email both produce the identical 401 response. -/
theorem signin_generic_unauthenticated_witness :
    signin testSecrets testState "a@x.com" "wrongpw" "j2" 0 =
      .error ⟨.unauthenticated, "Invalid email or password"⟩ :=
  signin_generic_unauthenticated testSecrets testState "a@x.com" "wrongpw"
    "j2" 0 (by decide) (by decide) (by decide)

/-! ## C7 -/

/-- C7 counterexample: the claim says forgotPassword never returns a
failure, but a request with an empty (falsy) email is rejected with 400
invalid_argument "Email is required" before the generic-success logic
runs. -/
theorem forgotPassword_empty_email_fails :
    forgotPassword testState "" "rt" 0 =
      .error ⟨.invalidArgument, "Email is required"⟩ := rfl

/-- C7 (amended to requests with a non-empty email): forgotPassword always
returns `{success: true}` with the one generic message, whether or not a
user with the given email exists. -/
theorem forgotPassword_nonempty_generic_success (st : AuthState)
    (email resetToken : String) (now : Nat) (hE : email ≠ "") :
    ∃ st2, forgotPassword st email resetToken now =
      .ok (st2, ⟨true, FORGOT_PASSWORD_MESSAGE⟩) := by
  cases hfind : st.users.find? (fun u => u.email == email) with
  | none => exact ⟨st, by simp [forgotPassword, hE, hfind]⟩
  | some user =>
    refine ⟨{ st with users := st.users.map (fun u =>
      if u.id == user.id then
        { u with reset_token := some resetToken,
                 reset_token_expires := some (now + RESET_TOKEN_LIFETIME),
                 updated_at := now }
      else u) }, ?_⟩
    simp [forgotPassword, hE, hfind]

/-- Witness for C7 (amended), on an email that does exist in the store. -/
theorem forgotPassword_nonempty_generic_success_witness :
    ∃ st2, forgotPassword testState "a@x.com" "rt" 5 =
      .ok (st2, ⟨true, FORGOT_PASSWORD_MESSAGE⟩) :=
  forgotPassword_nonempty_generic_success testState "a@x.com" "rt" 5 (by decide)

/-! ## C9 -/

/-- C9: the resetPassword lookup accepts a row exactly when its reset token
matches and its expiry is strictly in the future; consequently, when every
stored user carrying the presented token has `reset_token_expires` exactly
equal to now, the request is rejected with invalid_argument "Invalid or
expired reset token". -/
theorem resetPassword_expiry_boundary (st : AuthState)
    (token newPassword : String) (now salt : Nat) (u : User)
    (hT : token ≠ "") (hP : newPassword ≠ "")
    (hLen : ¬ newPassword.length < 6)
    (hEq : ∀ u2 ∈ st.users, u2.reset_token = some token →
           u2.reset_token_expires = some now) :
    (resetTokenMatches token now u = true ↔
      u.reset_token = some token ∧
        ∃ e, u.reset_token_expires = some e ∧ now < e) ∧
    resetPassword st token newPassword now salt =
      .error ⟨.invalidArgument, "Invalid or expired reset token"⟩ := by
  constructor
  · cases he : u.reset_token_expires with
    | none => simp [resetTokenMatches, he]
    | some e => simp [resetTokenMatches, he, and_comm]
  · have hcond : ¬ (token = "" ∨ newPassword = "") := by
      rintro (hc | hc)
      · exact hT hc
      · exact hP hc
    have hnone : st.users.find? (resetTokenMatches token now) = none := by
      rw [List.find?_eq_none]
      intro u2 hu2
      by_cases hrt : u2.reset_token = some token
      · have hexp := hEq u2 hu2 hrt
        simp [resetTokenMatches, hrt, hexp]
      · simp [resetTokenMatches, hrt]
    simp [resetPassword, hcond, hLen, hnone]

/-- User for the C9 witness: carries reset token "tok" expiring exactly at
instant 50. -/
def boundaryUser : User :=
  { testUser with reset_token := some "tok", reset_token_expires := some 50 }

/-- State for the C9 witness. -/
def boundaryState : AuthState := { users := [boundaryUser], refresh_tokens := [] }

/-- Witness for C9 at the concrete boundary instant 50. -/
theorem resetPassword_expiry_boundary_witness :
    (resetTokenMatches "tok" 50 boundaryUser = true ↔
      boundaryUser.reset_token = some "tok" ∧
        ∃ e, boundaryUser.reset_token_expires = some e ∧ 50 < e) ∧
    resetPassword boundaryState "tok" "newpassword" 50 1 =
      .error ⟨.invalidArgument, "Invalid or expired reset token"⟩ :=
  resetPassword_expiry_boundary boundaryState "tok" "newpassword" 50 1
    boundaryUser (by decide) (by decide) (by decide) (by decide)

/-! ## C6 -/

/-- One ledger write preserves every existing row position, never changes a
row jti, and never clears a revoked flag. -/
theorem applyOp_monotone (op : LedgerOp) (l : List RefreshTokenRecord)
    (i : Nat) (r : RefreshTokenRecord) (h : l[i]? = some r) :
    ∃ r2, (applyOp op l)[i]? = some r2 ∧ r2.jti = r.jti ∧
      (r.revoked = true → r2.revoked = true) := by
  cases op with
  | store userId jti now =>
    unfold applyOp storeRefreshToken
    by_cases hdup : l.any (fun r2 => r2.jti == jti)
    · exact ⟨r, by simp [hdup, h], rfl, fun hr => hr⟩
    · have hi : i < l.length := by
        have := List.getElem?_eq_some.mp h
        exact this.1
      refine ⟨r, ?_, rfl, fun hr => hr⟩
      simp only [hdup, if_false, Bool.false_eq_true]
      rw [List.getElem?_append, if_pos hi]
      exact h
  | revoke jti now =>
    refine ⟨if r.jti == jti then { r with revoked := true, revoked_at := some now }
            else r, ?_, ?_, ?_⟩
    · simp [applyOp, revokeRefreshToken, List.getElem?_map, h]
    · by_cases hj : r.jti == jti <;> simp [hj]
    · intro hr
      by_cases hj : r.jti == jti <;> simp [hj, hr]
  | revokeAll userId now =>
    refine ⟨if r.user_id == userId && !r.revoked then
              { r with revoked := true, revoked_at := some now }
            else r, ?_, ?_, ?_⟩
    · simp [applyOp, revokeAllUserTokens, List.getElem?_map, h]
    · by_cases hj : r.user_id == userId && !r.revoked <;> simp [hj]
    · intro hr
      by_cases hj : r.user_id == userId && !r.revoked <;> simp [hj, hr]

/-- C6: along every sequence of ledger operations (store, revoke,
revokeAll — the writes every endpoint flow is built from), each existing
row keeps its position and its jti, and its revoked flag never returns
from true to false. -/
theorem applyOps_ledger_monotone (ops : List LedgerOp)
    (l : List RefreshTokenRecord) (i : Nat) (r : RefreshTokenRecord)
    (h : l[i]? = some r) :
    ∃ r2, (applyOps ops l)[i]? = some r2 ∧ r2.jti = r.jti ∧
      (r.revoked = true → r2.revoked = true) := by
  induction ops generalizing l r with
  | nil => exact ⟨r, h, rfl, fun hr => hr⟩
  | cons op ops ih =>
    obtain ⟨r1, h1, hj1, hm1⟩ := applyOp_monotone op l i r h
    obtain ⟨r2, h2, hj2, hm2⟩ := ih (applyOp op l) r1 h1
    exact ⟨r2, h2, hj2.trans hj1, fun hr => hm2 (hm1 hr)⟩

/-- Ledger row for the C6 witness: already revoked at instant 1. -/
def revokedRow : RefreshTokenRecord :=
  { testRow with revoked := true, revoked_at := some 1 }

/-- Witness for C6: a revoke of "j1" followed by a store of "j2" keeps the
original row at position 0 with its jti and an irreversible revoked flag. -/
theorem applyOps_ledger_monotone_witness :
    ∃ r2, (applyOps [.revoke "j1" 5, .store "u1" "j2" 5] [revokedRow])[0]? =
        some r2 ∧
      r2.jti = revokedRow.jti ∧
      (revokedRow.revoked = true → r2.revoked = true) :=
  applyOps_ledger_monotone [.revoke "j1" 5, .store "u1" "j2" 5]
    [revokedRow] 0 revokedRow (by decide)

/-! ## Inversion lemmas for the validators and the ledger writes -/

/-- A successful `jwt.verify` returns exactly the embedded claims, and its
success certifies the signature (secret), issuer, audience and freshness. -/
theorem jwtVerify_ok_facts {tok : SignedToken} {secret issuer audience : String}
    {now : Nat} {c : JwtClaims}
    (h : jwtVerify tok secret issuer audience now = .ok c) :
    c = tok.claims ∧ tok.secret = secret ∧ tok.issuer = issuer ∧
      tok.audience = audience ∧ now < tok.claims.exp := by
  unfold jwtVerify at h
  by_cases h1 : tok.secret ≠ secret
  · rw [if_pos h1] at h
    exact Except.noConfusion h
  · rw [if_neg h1] at h
    by_cases h2 : tok.issuer ≠ issuer ∨ tok.audience ≠ audience
    · rw [if_pos h2] at h
      exact Except.noConfusion h
    · rw [if_neg h2] at h
      by_cases h3 : tok.claims.exp ≤ now
      · rw [if_pos h3] at h
        exact Except.noConfusion h
      · rw [if_neg h3] at h
        injection h with h4
        push_neg at h1 h2 h3
        exact ⟨h4.symm, h1, h2.1, h2.2, h3⟩

/-- A successful `validateAccessToken` certifies that the token embeds an
access-typed payload (the returned one), carries the access secret and the
fixed issuer/audience, and is not yet expired. -/
theorem validateAccessToken_ok_facts {s : Secrets} {tok : SignedToken}
    {now : Nat} {q : AccessTokenPayload}
    (h : validateAccessToken s tok now = .ok q) :
    tok.claims = .access q ∧ tok.secret = s.accessSecret ∧
      tok.issuer = JWT_ISSUER ∧ tok.audience = JWT_AUDIENCE := by
  unfold validateAccessToken at h
  cases hv : jwtVerify tok s.accessSecret JWT_ISSUER JWT_AUDIENCE now with
  | error e =>
    rw [hv] at h
    cases e <;> exact Except.noConfusion h
  | ok c =>
    rw [hv] at h
    obtain ⟨hc, hs, hi, ha, _⟩ := jwtVerify_ok_facts hv
    cases c with
    | access p2 =>
      simp only [Except.ok.injEq] at h
      subst h
      exact ⟨hc.symm, hs, hi, ha⟩
    | refresh p2 => exact Except.noConfusion h

/-- A successful `validateRefreshToken` certifies that the token embeds a
refresh-typed payload (the returned one), carries the refresh secret and
the fixed issuer/audience, and is not yet expired. -/
theorem validateRefreshToken_ok_facts {s : Secrets} {tok : SignedToken}
    {now : Nat} {q : RefreshTokenPayload}
    (h : validateRefreshToken s tok now = .ok q) :
    tok.claims = .refresh q ∧ tok.secret = s.refreshSecret ∧
      tok.issuer = JWT_ISSUER ∧ tok.audience = JWT_AUDIENCE := by
  unfold validateRefreshToken at h
  cases hv : jwtVerify tok s.refreshSecret JWT_ISSUER JWT_AUDIENCE now with
  | error e =>
    rw [hv] at h
    cases e <;> exact Except.noConfusion h
  | ok c =>
    rw [hv] at h
    obtain ⟨hc, hs, hi, ha, _⟩ := jwtVerify_ok_facts hv
    cases c with
    | refresh p2 =>
      simp only [Except.ok.injEq] at h
      subst h
      exact ⟨hc.symm, hs, hi, ha⟩
    | access p2 => exact Except.noConfusion h

/-- Validating a refresh-typed token either succeeds with its embedded
payload or fails; it never succeeds with a different payload. -/
theorem validateRefreshToken_of_claims {s : Secrets} {tok : SignedToken}
    {p : RefreshTokenPayload} (now : Nat)
    (hclaims : tok.claims = .refresh p) :
    validateRefreshToken s tok now = .ok p ∨
      ∃ e, validateRefreshToken s tok now = .error e := by
  cases hv : validateRefreshToken s tok now with
  | error e => exact .inr ⟨e, rfl⟩
  | ok q =>
    left
    obtain ⟨hc, -, -, -⟩ := validateRefreshToken_ok_facts hv
    rw [hclaims] at hc
    injection hc with h4
    rw [h4]

/-- A successful `extractUserFromToken` comes from a successful
`validateAccessToken` and projects its payload. -/
theorem extractUserFromToken_ok_facts {s : Secrets} {tok : SignedToken}
    {now : Nat} {info : String × String × Bool}
    (h : extractUserFromToken s tok now = .ok info) :
    ∃ q, validateAccessToken s tok now = .ok q ∧
      info = (q.sub, q.email, q.is_verified) := by
  unfold extractUserFromToken at h
  cases hv : validateAccessToken s tok now with
  | error e =>
    rw [hv] at h
    simp [Except.map] at h
  | ok q =>
    rw [hv] at h
    simp only [Except.map, Except.ok.injEq] at h
    exact ⟨q, rfl, h.symm⟩

/-- A successful `storeRefreshToken` certifies the stored jti was absent
and appends the new default row. -/
theorem storeRefreshToken_ok_facts {userId jti : String} {now : Nat}
    {l l2 : List RefreshTokenRecord}
    (h : storeRefreshToken userId jti now l = .ok l2) :
    l.any (fun r => r.jti == jti) = false ∧
    l2 = l ++ [{ user_id := userId, jti := jti, created_at := now,
                 expires_at := now + REFRESH_ROW_LIFETIME, revoked := false,
                 revoked_at := none }] := by
  unfold storeRefreshToken at h
  by_cases hd : l.any (fun r => r.jti == jti) = true
  · rw [if_pos hd] at h
    exact Except.noConfusion h
  · rw [if_neg hd] at h
    injection h with h4
    exact ⟨by simpa using hd, h4.symm⟩

/-- After `revokeRefreshToken jti`, every row carrying that jti is
revoked. -/
theorem mem_revokeRefreshToken_revoked {jti : String} {now : Nat}
    {l : List RefreshTokenRecord} {r : RefreshTokenRecord}
    (hr : r ∈ revokeRefreshToken jti now l) (hj : r.jti = jti) :
    r.revoked = true := by
  unfold revokeRefreshToken at hr
  obtain ⟨r0, hr0, hfr⟩ := List.mem_map.mp hr
  by_cases hj0 : r0.jti == jti
  · rw [if_pos hj0] at hfr
    rw [← hfr]
  · rw [if_neg hj0] at hfr
    subst hfr
    exact absurd (beq_iff_eq.mpr hj) hj0

/-- `revokeRefreshToken` keeps a row for every previous row, with the same
jti. -/
theorem revokeRefreshToken_mem_jti (jti : String) (now : Nat)
    {l : List RefreshTokenRecord} {r0 : RefreshTokenRecord} (h0 : r0 ∈ l) :
    ∃ r ∈ revokeRefreshToken jti now l, r.jti = r0.jti := by
  unfold revokeRefreshToken
  refine ⟨if r0.jti == jti then { r0 with revoked := true, revoked_at := some now }
          else r0, List.mem_map_of_mem _ h0, ?_⟩
  by_cases hj0 : r0.jti == jti
  · rw [if_pos hj0]
  · rw [if_neg hj0]

/-- Row-wise description of `revokeAllUserTokens` by position. -/
theorem revokeAllUserTokens_getElem (userId : String) (now : Nat)
    (l : List RefreshTokenRecord) (i : Nat) {r : RefreshTokenRecord}
    (h : l[i]? = some r) :
    (revokeAllUserTokens userId now l)[i]? =
      some (if r.user_id == userId && !r.revoked then
              { r with revoked := true, revoked_at := some now }
            else r) := by
  unfold revokeAllUserTokens
  rw [List.getElem?_map, h]
  rfl

/-! ## C10 -/

/-- C10: a successful changePassword call revokes every non-revoked
refresh-token row of the authenticated user (all rows of that user are
revoked afterwards, including the one backing the current session, despite
the code comment about keeping it), leaves rows of other users untouched,
and every jti owned solely by that user fails isValid afterwards. -/
theorem changePassword_revokes_all (s : Secrets) (st : AuthState)
    (authorization accessTokenCookie : Option SignedToken)
    (currentPassword newPassword : String) (now salt : Nat)
    (tok : SignedToken) (p : AccessTokenPayload)
    (st2 : AuthState) (resp : PasswordResponse)
    (htok : (match authorization with
             | some t => some t
             | none => accessTokenCookie) = some tok)
    (hclaims : tok.claims = .access p)
    (hok : changePassword s st authorization accessTokenCookie
             currentPassword newPassword now salt = .ok (st2, resp)) :
    (∀ (i : Nat) (r r2 : RefreshTokenRecord),
       st.refresh_tokens[i]? = some r →
       st2.refresh_tokens[i]? = some r2 →
       (r.user_id = p.sub → r2.revoked = true) ∧
       (r.user_id ≠ p.sub → r2 = r)) ∧
    (∀ (j : String) (now2 : Nat),
       (∀ r ∈ st.refresh_tokens, r.jti = j → r.user_id = p.sub) →
       isRefreshTokenValid j now2 st2.refresh_tokens = false) := by
  by_cases hc1 : currentPassword = "" ∨ newPassword = ""
  · have hred : changePassword s st authorization accessTokenCookie
        currentPassword newPassword now salt =
        .error ⟨.invalidArgument,
          "Current password and new password are required"⟩ := by
      simp [changePassword, htok, hc1]
    rw [hred] at hok
    exact Except.noConfusion hok
  by_cases hc2 : newPassword.length < 6
  · have hred : changePassword s st authorization accessTokenCookie
        currentPassword newPassword now salt =
        .error ⟨.invalidArgument,
          "New password must be at least 6 characters long"⟩ := by
      simp [changePassword, htok, hc1, hc2]
    rw [hred] at hok
    exact Except.noConfusion hok
  cases hext : extractUserFromToken s tok now with
  | error e =>
    have hred : changePassword s st authorization accessTokenCookie
        currentPassword newPassword now salt = .error e := by
      simp [changePassword, htok, hc1, hc2, hext]
    rw [hred] at hok
    exact Except.noConfusion hok
  | ok info =>
    cases hfind : st.users.find? (fun u => u.id == info.1) with
    | none =>
      have hred : changePassword s st authorization accessTokenCookie
          currentPassword newPassword now salt =
          .error ⟨.unauthenticated, "User not found"⟩ := by
        simp [changePassword, htok, hc1, hc2, hext, hfind]
      rw [hred] at hok
      exact Except.noConfusion hok
    | some user =>
      by_cases hvp : verifyPassword currentPassword user.password_hash = true
      case neg =>
        have hred : changePassword s st authorization accessTokenCookie
            currentPassword newPassword now salt =
            .error ⟨.invalidArgument, "Current password is incorrect"⟩ := by
          simp [changePassword, htok, hc1, hc2, hext, hfind, hvp]
        rw [hred] at hok
        exact Except.noConfusion hok
      case pos =>
        have hred : changePassword s st authorization accessTokenCookie
            currentPassword newPassword now salt =
            .ok ({ users := st.users.map (fun u =>
                     if u.id == user.id then
                       { u with password_hash := hashPassword newPassword salt,
                                updated_at := now }
                     else u),
                   refresh_tokens :=
                     revokeAllUserTokens user.id now st.refresh_tokens },
                 ⟨true, "Password changed successfully"⟩) := by
          simp [changePassword, htok, hc1, hc2, hext, hfind, hvp]
        rw [hred] at hok
        simp only [Except.ok.injEq, Prod.mk.injEq] at hok
        obtain ⟨hst2, -⟩ := hok
        have huid : user.id = p.sub := by
          obtain ⟨q, hq, hinfo⟩ := extractUserFromToken_ok_facts hext
          obtain ⟨hcq, -, -, -⟩ := validateAccessToken_ok_facts hq
          rw [hclaims] at hcq
          injection hcq with hpq
          have hid : user.id = info.1 := by
            have := List.find?_some hfind
            simpa using this
          rw [hid, hinfo, ← hpq]
        have hrt2 : st2.refresh_tokens =
            revokeAllUserTokens p.sub now st.refresh_tokens := by
          rw [← hst2, ← huid]
        constructor
        · intro i r r2 h1 h2
          rw [hrt2] at h2
          rw [revokeAllUserTokens_getElem p.sub now st.refresh_tokens i h1] at h2
          simp only [Option.some.injEq] at h2
          subst h2
          constructor
          · intro hu
            by_cases hrev : r.revoked = true <;> simp [hu, hrev]
          · intro hu
            simp [hu]
        · intro j now2 hown
          rw [hrt2]
          unfold isRefreshTokenValid
          rw [List.any_eq_false]
          intro r2 hr2
          by_cases hj : r2.jti = j
          · have hrev : r2.revoked = true := by
              unfold revokeAllUserTokens at hr2
              obtain ⟨r0, hr0, hfr⟩ := List.mem_map.mp hr2
              by_cases hc : (r0.user_id == p.sub && !r0.revoked) = true
              · rw [if_pos hc] at hfr
                rw [← hfr]
              · rw [if_neg hc] at hfr
                subst hfr
                have himp : r0.user_id = p.sub → r0.revoked = true := by
                  simpa using hc
                exact himp (hown r0 hr0 hj)
            simp [hrev]
          · simp [hj]

/-- Access token presented in the C10 witness: issued to `testUser` at
time 0. -/
def testAccessJwt : SignedToken := generateAccessToken testSecrets testUser 0

/-- The payload embedded in `testAccessJwt`. -/
def accessPayload : AccessTokenPayload :=
  { sub := "u1", email := "a@x.com", is_verified := false, iat := 0,
    exp := 0 + ACCESS_TOKEN_EXPIRY }

/-- User row after the C10 witness call. -/
def cpwUser2 : User :=
  { testUser with password_hash := hashPassword "newpassword" 3, updated_at := 7 }

/-- Ledger row after the C10 witness call: revoked, including the session
that made the request. -/
def cpwRow2 : RefreshTokenRecord :=
  { testRow with revoked := true, revoked_at := some 7 }

/-- State after the C10 witness call. -/
def cpwState2 : AuthState := { users := [cpwUser2], refresh_tokens := [cpwRow2] }

/-- Witness for C10: a successful change of the password of `testUser`
revokes the row backing the running session, whose jti then fails
isValid. -/
theorem changePassword_revokes_all_witness :
    ((testRow.user_id = accessPayload.sub → cpwRow2.revoked = true) ∧
     (testRow.user_id ≠ accessPayload.sub → cpwRow2 = testRow)) ∧
    isRefreshTokenValid "j1" 100 cpwState2.refresh_tokens = false := by
  have h := changePassword_revokes_all testSecrets testState
    (some testAccessJwt) none "secret1" "newpassword" 7 3 testAccessJwt
    accessPayload cpwState2 ⟨true, "Password changed successfully"⟩
    rfl rfl rfl
  exact ⟨h.1 0 testRow cpwRow2 (by decide) (by decide),
         h.2 "j1" 100 (by decide)⟩

/-! ## C1 -/

/-- C1: refresh rotation.  Whenever a refresh call presenting a refresh
token whose payload carries jti `p.jti` succeeds, afterwards
`isRefreshTokenValid p.jti` is false at every instant, and a second
refresh call presenting the same token fails with an Unauthenticated
error instead of issuing tokens. -/
theorem refresh_rotation (s : Secrets) (st : AuthState) (tok : SignedToken)
    (p : RefreshTokenPayload) (newJti : String) (now : Nat)
    (st2 : AuthState) (toks : SignedToken × SignedToken)
    (hclaims : tok.claims = .refresh p)
    (hok : refresh s st (some tok) newJti now = (st2, .ok toks)) :
    (∀ now2 : Nat, isRefreshTokenValid p.jti now2 st2.refresh_tokens = false) ∧
    (∀ (newJti2 : String) (now3 : Nat), ∃ msg,
      (refresh s st2 (some tok) newJti2 now3).2 =
        .error ⟨.unauthenticated, msg⟩) := by
  cases hval : validateRefreshToken s tok now with
  | error e =>
    have hred : refresh s st (some tok) newJti now =
        (st, .error ⟨.unauthenticated, "Invalid refresh token"⟩) := by
      simp [refresh, hval]
    rw [hred] at hok
    simp at hok
  | ok q =>
    obtain ⟨hcq, -, -, -⟩ := validateRefreshToken_ok_facts hval
    rw [hclaims] at hcq
    injection hcq with hqp
    subst hqp
    by_cases hvalid : isRefreshTokenValid p.jti now st.refresh_tokens = true
    case neg =>
      have hred : refresh s st (some tok) newJti now =
          (st, .error ⟨.unauthenticated, "Refresh token revoked or expired"⟩) := by
        simp [refresh, hval, hvalid]
      rw [hred] at hok
      simp at hok
    case pos =>
      cases hfind : st.users.find? (fun u => u.id == p.sub) with
      | none =>
        have hred : refresh s st (some tok) newJti now =
            (st, .error ⟨.unauthenticated, "User not found"⟩) := by
          simp [refresh, hval, hvalid, hfind]
        rw [hred] at hok
        simp at hok
      | some user =>
        cases hstore : storeRefreshToken user.id newJti now
            (revokeRefreshToken p.jti now st.refresh_tokens) with
        | error e2 =>
          have hred : refresh s st (some tok) newJti now =
              ({ st with refresh_tokens :=
                   revokeRefreshToken p.jti now st.refresh_tokens },
               .error ⟨.unauthenticated, "Invalid refresh token"⟩) := by
            simp [refresh, hval, hvalid, hfind, generateTokenPair,
              generateRefreshToken, hstore]
          rw [hred] at hok
          simp at hok
        | ok ledger2 =>
          obtain ⟨hany, hl2⟩ := storeRefreshToken_ok_facts hstore
          have hred : refresh s st (some tok) newJti now =
              ({ st with refresh_tokens := ledger2 },
               .ok ((generateTokenPair s user newJti now).1,
                    (generateTokenPair s user newJti now).2.1)) := by
            simp [refresh, hval, hvalid, hfind, generateTokenPair,
              generateRefreshToken, generateAccessToken, hstore]
          rw [hred] at hok
          have hst2 : st2.refresh_tokens = ledger2 := by
            have hfst := congrArg Prod.fst hok
            simp at hfst
            rw [← hfst]
          -- a row with the presented jti exists, so the fresh jti differs
          have hex : ∃ r0 ∈ st.refresh_tokens, r0.jti = p.jti := by
            have hv := hvalid
            unfold isRefreshTokenValid at hv
            rw [List.any_eq_true] at hv
            obtain ⟨r0, hr0, hp0⟩ := hv
            simp only [Bool.and_eq_true, beq_iff_eq] at hp0
            exact ⟨r0, hr0, hp0.1.1⟩
          have hne : p.jti ≠ newJti := by
            obtain ⟨r0, hr0, hj0⟩ := hex
            obtain ⟨r1, hr1, hj1⟩ := revokeRefreshToken_mem_jti p.jti now hr0
            rw [List.any_eq_false] at hany
            have hne1 := hany r1 hr1
            simp only [beq_iff_eq] at hne1
            rw [hj1, hj0] at hne1
            exact hne1
          have hall : ∀ r ∈ ledger2, r.jti = p.jti → r.revoked = true := by
            intro r hr hj
            rw [hl2] at hr
            rcases List.mem_append.mp hr with hmem | hmem
            · exact mem_revokeRefreshToken_revoked hmem hj
            · simp only [List.mem_singleton] at hmem
              subst hmem
              simp only at hj
              exact absurd hj.symm hne
          have hpart1 : ∀ now2 : Nat,
              isRefreshTokenValid p.jti now2 st2.refresh_tokens = false := by
            intro now2
            rw [hst2]
            unfold isRefreshTokenValid
            rw [List.any_eq_false]
            intro r hr
            by_cases hj : r.jti = p.jti
            · simp [hall r hr hj]
            · simp [hj]
          refine ⟨hpart1, ?_⟩
          intro newJti2 now3
          rcases validateRefreshToken_of_claims (s := s) now3 hclaims with
            hv2 | ⟨e2, hv2⟩
          · exact ⟨"Refresh token revoked or expired",
              by simp [refresh, hv2, hpart1 now3]⟩
          · exact ⟨"Invalid refresh token", by simp [refresh, hv2]⟩

/-- Old ledger row after the C1 witness rotation: revoked at instant 10. -/
def rotRow1 : RefreshTokenRecord :=
  { testRow with revoked := true, revoked_at := some 10 }

/-- New ledger row stored by the C1 witness rotation, jti "j2". -/
def rotRow2 : RefreshTokenRecord :=
  { user_id := "u1", jti := "j2", created_at := 10,
    expires_at := 10 + REFRESH_ROW_LIFETIME, revoked := false,
    revoked_at := none }

/-- State after the C1 witness rotation. -/
def rotState2 : AuthState := { users := [testUser], refresh_tokens := [rotRow1, rotRow2] }

/-- Token pair issued by the C1 witness rotation. -/
def rotToks : SignedToken × SignedToken :=
  ((generateTokenPair testSecrets testUser "j2" 10).1,
   (generateTokenPair testSecrets testUser "j2" 10).2.1)

/-- Witness for C1: after rotating "j1" into "j2" at time 10, the old jti
fails isValid at time 20, and replaying the stale refresh token at time 20
is answered with an Unauthenticated error. -/
theorem refresh_rotation_witness :
    isRefreshTokenValid "j1" 20 rotState2.refresh_tokens = false ∧
    (∃ msg, (refresh testSecrets rotState2 (some testRefreshJwt) "j3" 20).2 =
      .error ⟨.unauthenticated, msg⟩) := by
  have h := refresh_rotation testSecrets testState testRefreshJwt
    { sub := "u1", jti := "j1", iat := 0, exp := 0 + REFRESH_TOKEN_EXPIRY }
    "j2" 10 rotState2 rotToks rfl rfl
  exact ⟨h.1 20, h.2 "j3" 20⟩

end Auth
